import Mathlib

/-!
Shallow embedding of `src/services/aiService.js` (IDM-VTON backend try-on
client adapter).  The source file contains two structurally divergent
variants of the same client (the spec's design notes acknowledge this):

* variant 1 (the first half of the file): caches the Gradio client in a
  module-level `cachedClient`, fetches the two source images as in-memory
  blobs, calls `client.predict("/tryon", [...])` with positional
  arguments, and resets the cache in its `catch` block;
* variant 2 (the second half, embedded below under the `V2` namespace):
  connects afresh on every call, materializes the two images as temporary
  files, calls predict with named arguments, and deletes the temporary
  files in a `finally` block.

External collaborators (Gradio connect/duplicate, axios HTTP GET, the
remote predict call, the ambient filesystem for variant 1's
`fs.readFileSync`, and the `Date.now()` clock) are modelled as an
environment of `Except`-valued oracles.  Each run additionally produces a
trace of the effects it performed, so that claims about call counts and
about calls never being attempted can be stated.  Local filesystem
operations of variant 2 (write/exists/unlink in the temp directory) are
modelled as reliable operations on an explicit association-list
filesystem state.  JavaScript loose values arriving from the remote
service are modelled by the inductive `JSVal`, with JS truthiness of
string fields made explicit (an absent field and the empty string are
falsy).
-/

/-- A loosely typed JavaScript value as seen by the result normalizer:
an object carrying optional `url` and `path` string fields, a bare
string, an inline binary blob, a number, `null`, or `undefined`. -/
inductive JSVal where
  | obj (url : Option String) (path : Option String)
  | str (s : String)
  | blob (bytes : List Nat)
  | num (n : Int)
  | null
  | undef
deriving DecidableEq

/-- The `gr.ImageEditor` input dictionary built at lines 97-101:
`{ background: personFile, layers: [], composite: null }`. -/
structure ImageEditorInput where
  background : List Nat
  layers : List (List Nat)
  composite : Option (List Nat)
deriving DecidableEq

/-- The full argument set of the `client.predict("/tryon", [...])` call. -/
structure PredictCall where
  endpoint : String
  dict : ImageEditorInput
  garm_img : List Nat
  garment_des : String
  is_checked : Bool
  is_checked_crop : Bool
  denoise_steps : Nat
  seed : Nat
deriving DecidableEq

/-- One externally visible effect performed during a run. -/
inductive Effect where
  | connect (space : String)
  | duplicate (space : String) (timeoutSec : Nat) (priv : Bool)
  | httpGet (url : String)
  | predictCall (call : PredictCall)
  | predictCall2 (personPath : String) (garmentPath : String)
  | readFile (path : String)
  | writeFile (path : String)
  | unlink (path : String)
deriving DecidableEq

/-- Outcome of `performTryOn`: `{success: true, imageBuffer, processingTime}`
or `{success: false, error, processingTime}`. -/
inductive TryOnResult where
  | success (imageBuffer : List Nat) (processingTime : Int)
  | failure (error : String) (processingTime : Int)
deriving DecidableEq

/-- Outcome of `checkModelStatus`: `{available: true, status}` or
`{available: false, error}`. -/
inductive StatusResult where
  | available (status : String)
  | unavailable (error : String)
deriving DecidableEq

/-- The fixed remote resource identifier, line 8 of the source. -/
def SPACE_ID : String := "yisol/IDM-VTON"

/-- Behaviour of the remote collaborators and the clock for one run of
variant 1.  `connect` and `duplicate` give the outcomes of
`Client.connect(SPACE_ID, ...)` and `Client.duplicate(SPACE_ID, ...)`;
`axiosGet` gives, per URL, the bytes returned by
`axios.get(url, {responseType: 'arraybuffer'})`; `predict` gives the
`result.data` list of the remote call; `readFile` models the ambient
filesystem for `fs.readFileSync`; `now1` and `now2` are the `Date.now()`
readings at the start and at the end of the run. -/
structure Env where
  hasToken : Bool
  connect : Except String Nat
  duplicate : Except String Nat
  axiosGet : String → Except String (List Nat)
  predict : Nat → PredictCall → Except String (List JSVal)
  readFile : String → Except String (List Nat)
  now1 : Nat
  now2 : Nat

/-- JavaScript `error.message || 'Try-on processing failed'` (line 167). -/
def errMsg (e : String) : String :=
  if e = "" then "Try-on processing failed" else e

/-- The guard of the first normalizer branch, `outputImage && outputImage.url`
(line 124): the value is an object whose `url` field is truthy. -/
def objUrlField : JSVal → Option String
  | JSVal.obj (some u) _ => if u = "" then none else some u
  | _ => none

/-- The guard of the second normalizer branch, `outputImage && outputImage.path`
(line 129): the value is an object whose `path` field is truthy. -/
def objPathField : JSVal → Option String
  | JSVal.obj _ (some p) => if p = "" then none else some p
  | _ => none

/-- JavaScript `s.startsWith(pre)`, expressed over the underlying
character lists so that it evaluates inside the kernel. -/
def jsStartsWith (s pre : String) : Bool := List.isPrefixOf pre.data s.data

/-- The guard of the third normalizer branch (line 132):
`typeof outputImage === 'string' && outputImage.startsWith('http')`. -/
def httpString : JSVal → Option String
  | JSVal.str s => if jsStartsWith s "http" then some s else none
  | _ => none

/-- The guard of the fourth normalizer branch, `outputImage instanceof Blob`
(line 136), returning the blob's bytes. -/
def blobBytes : JSVal → Option (List Nat)
  | JSVal.blob b => some b
  | _ => none

/-- The result normalizer of lines 123-141: the four-branch if-chain over
the first remote output, together with the effects it performs.  An
unrecognized shape throws `'Unexpected output format from Gradio client'`. -/
def normalizeOutputT (env : Env) (out : JSVal) : Except String (List Nat) × List Effect :=
  match objUrlField out with
  | some u => (env.axiosGet u, [Effect.httpGet u])
  | none =>
    match objPathField out with
    | some q => (env.readFile q, [Effect.readFile q])
    | none =>
      match httpString out with
      | some u => (env.axiosGet u, [Effect.httpGet u])
      | none =>
        match blobBytes out with
        | some b => (Except.ok b, [])
        | none => (Except.error "Unexpected output format from Gradio client", [])

/-- `getClient` (lines 32-66): return the cached client if present;
otherwise require the token, try `Client.connect`, fall back to
`Client.duplicate(SPACE_ID, {timeout: 300, private: true})`, caching the
obtained handle; propagate the failure if both attempts fail.  Returns
the call's outcome, the new value of `cachedClient`, and the trace. -/
def getClient (env : Env) (st : Option Nat) :
    Except String Nat × Option Nat × List Effect :=
  match st with
  | some c => (Except.ok c, some c, [])
  | none =>
    if env.hasToken then
      match env.connect with
      | Except.ok c => (Except.ok c, some c, [Effect.connect SPACE_ID])
      | Except.error _ =>
        match env.duplicate with
        | Except.ok c =>
            (Except.ok c, some c,
             [Effect.connect SPACE_ID, Effect.duplicate SPACE_ID 300 true])
        | Except.error e =>
            (Except.error e, none,
             [Effect.connect SPACE_ID, Effect.duplicate SPACE_ID 300 true])
    else
      (Except.error "HUGGINGFACE_API_KEY is required for IDM-VTON", none, [])

/-- `fetchImageBlob` (lines 23-26): one HTTP GET of the image bytes; it
creates no temporary file. -/
def fetchImageBlob (env : Env) (url : String) :
    Except String (List Nat) × List Effect :=
  (env.axiosGet url, [Effect.httpGet url])

/-- The argument set built at lines 97-113 from the two downloaded blobs:
endpoint `"/tryon"`, the person image wrapped as an ImageEditor dict with
empty layers and null composite, the garment image, the fixed description,
auto-mask true, auto-crop false, 30 denoise steps, seed 42. -/
def mkPredictCall (pb gb : List Nat) : PredictCall :=
  { endpoint := "/tryon"
  , dict := { background := pb, layers := [], composite := none }
  , garm_img := gb
  , garment_des := "A stylish garment"
  , is_checked := true
  , is_checked_crop := false
  , denoise_steps := 30
  , seed := 42 }

/-- The body of variant 1's `try` block after the client is obtained
(lines 82-141): download both images, call predict, take `result.data[0]`
(JS `undefined` when the list is empty), and normalize it. -/
def runTryOnBody (env : Env) (c : Nat) (personImageUrl garmentImageUrl : String) :
    Except String (List Nat) × List Effect :=
  match (fetchImageBlob env personImageUrl).1 with
  | Except.error e => (Except.error e, [Effect.httpGet personImageUrl])
  | Except.ok pb =>
    match (fetchImageBlob env garmentImageUrl).1 with
    | Except.error e =>
        (Except.error e, [Effect.httpGet personImageUrl, Effect.httpGet garmentImageUrl])
    | Except.ok gb =>
      match env.predict c (mkPredictCall pb gb) with
      | Except.error e =>
          (Except.error e,
           [Effect.httpGet personImageUrl, Effect.httpGet garmentImageUrl,
            Effect.predictCall (mkPredictCall pb gb)])
      | Except.ok data =>
        let n := normalizeOutputT env (data.headD JSVal.undef)
        (n.1,
         [Effect.httpGet personImageUrl, Effect.httpGet garmentImageUrl,
          Effect.predictCall (mkPredictCall pb gb)] ++ n.2)

/-- Variant 1's `performTryOn` (lines 73-171): acquire the client, run the
body, and convert any thrown error into the failure-shaped result, with
`cachedClient = null` in the catch block (line 162) and
`processingTime = Date.now() - startTime` on both exits.  Returns the
result, the final value of `cachedClient`, and the trace. -/
def performTryOn (env : Env) (st : Option Nat)
    (personImageUrl garmentImageUrl : String) :
    TryOnResult × Option Nat × List Effect :=
  let pt : Int := (env.now2 : Int) - (env.now1 : Int)
  match getClient env st with
  | (Except.error e, _, tr1) => (TryOnResult.failure (errMsg e) pt, none, tr1)
  | (Except.ok c, st1, tr1) =>
    match runTryOnBody env c personImageUrl garmentImageUrl with
    | (Except.error e, tr2) => (TryOnResult.failure (errMsg e) pt, none, tr1 ++ tr2)
    | (Except.ok b, tr2) => (TryOnResult.success b pt, st1, tr1 ++ tr2)

/-- `checkModelStatus` (lines 176-184): one direct `Client.connect`; the
module-level `cachedClient` is neither read nor written. -/
def checkModelStatus (env : Env) (st : Option Nat) :
    StatusResult × Option Nat × List Effect :=
  match env.connect with
  | Except.ok _ => (StatusResult.available "Connected", st, [Effect.connect SPACE_ID])
  | Except.error e => (StatusResult.unavailable e, st, [Effect.connect SPACE_ID])

/-- The `processingTime` field of either outcome shape. -/
def TryOnResult.processingTime : TryOnResult → Int
  | TryOnResult.success _ t => t
  | TryOnResult.failure _ t => t

/-- Whether an effect is a connection or provisioning attempt. -/
def Effect.isConn : Effect → Bool
  | Effect.connect _ => true
  | Effect.duplicate _ _ _ => true
  | _ => false

/-- Whether an effect is a remote predict call. -/
def Effect.isPredict : Effect → Bool
  | Effect.predictCall _ => true
  | Effect.predictCall2 _ _ => true
  | _ => false

/-- Whether an effect creates a file. -/
def Effect.isWrite : Effect → Bool
  | Effect.writeFile _ => true
  | _ => false

/-- The temp-directory filesystem state for variant 2: an association
list from paths to file contents. -/
abbrev FS : Type := List (String × List Nat)

/-- `fs.writeFileSync(path, data)` on the modelled filesystem. -/
def fsWrite (fs : FS) (p : String) (b : List Nat) : FS :=
  (p, b) :: List.filter (fun e => !(e.1 == p)) fs

/-- `fs.existsSync(path)` on the modelled filesystem. -/
def fsExists (fs : FS) (p : String) : Bool :=
  List.any fs (fun e => e.1 == p)

/-- `fs.unlinkSync(path)` on the modelled filesystem. -/
def fsUnlink (fs : FS) (p : String) : FS :=
  List.filter (fun e => !(e.1 == p)) fs

/-- `fs.readFileSync(path)` on the modelled filesystem: throws when the
path does not exist. -/
def fsRead (fs : FS) (p : String) : Except String (List Nat) :=
  match List.find? (fun e => e.1 == p) fs with
  | some e => Except.ok e.2
  | none => Except.error ("ENOENT: no such file " ++ p)

/-- Behaviour of the collaborators for one run of variant 2.  There is no
`duplicate` fallback and no cached client in this variant.  `predict`
receives the client handle and the two temp-file paths that were wrapped
with `handle_file`; `personStamp` and `garmentStamp` are the `Date.now()`
values used to name the two temporary files. -/
structure Env2 where
  connect : Except String Nat
  axiosGet : String → Except String (List Nat)
  predict : Nat → String → String → Except String (List JSVal)
  now1 : Nat
  now2 : Nat
  personStamp : Nat
  garmentStamp : Nat

/-- The temp path built at line 212 of the source:
`path.join(os.tmpdir(), prefix + '_' + Date.now() + '.jpg')`, with
`os.tmpdir()` modelled as `/tmp`. -/
def tempPath (pre : String) (stamp : Nat) : String :=
  "/tmp/" ++ pre ++ "_" ++ toString stamp ++ ".jpg"

/-- `downloadToTempFile` of variant 2 (lines 209-215): HTTP GET the url,
write the bytes to a fresh temp path, and return the path together with
the updated filesystem. -/
def V2.downloadToTempFile (env : Env2) (fs : FS) (url : String)
    (pre : String) (stamp : Nat) :
    Except String (String × FS) × List Effect :=
  match env.axiosGet url with
  | Except.error e => (Except.error e, [Effect.httpGet url])
  | Except.ok bytes =>
      (Except.ok (tempPath pre stamp, fsWrite fs (tempPath pre stamp) bytes),
       [Effect.httpGet url, Effect.writeFile (tempPath pre stamp)])

/-- The result normalizer of variant 2 (lines 278-297), identical in
shape to variant 1's but reading the `path` branch from the modelled
filesystem. -/
def V2.normalizeOutputT (env : Env2) (fs : FS) (out : JSVal) :
    Except String (List Nat) × List Effect :=
  match objUrlField out with
  | some u => (env.axiosGet u, [Effect.httpGet u])
  | none =>
    match objPathField out with
    | some q => (fsRead fs q, [Effect.readFile q])
    | none =>
      match httpString out with
      | some u => (env.axiosGet u, [Effect.httpGet u])
      | none =>
        match blobBytes out with
        | some b => (Except.ok b, [])
        | none => (Except.error "Unexpected output format from Gradio client", [])

/-- One arm of the `finally` block (lines 326-331): unlink the temp path
if it was assigned and still exists. -/
def unlinkIfExistsOpt (fs : FS) (p : Option String) : FS × List Effect :=
  match p with
  | none => (fs, [])
  | some q => if fsExists fs q then (fsUnlink fs q, [Effect.unlink q]) else (fs, [])

/-- The whole `finally` block of variant 2 (lines 323-335): delete the
person temp file, then the garment temp file, when each was assigned. -/
def V2.cleanup (fs : FS) (pp gp : Option String) : FS × List Effect :=
  let a := unlinkIfExistsOpt fs pp
  let b := unlinkIfExistsOpt a.1 gp
  (b.1, a.2 ++ b.2)

/-- Exit of variant 2's `performTryOn`: convert the body's outcome into the
result shape (catch block, lines 305-322) and run the `finally` cleanup. -/
def V2.finishTryOn (pt : Int) (res : Except String (List Nat)) (fs : FS)
    (pp gp : Option String) (tr : List Effect) : TryOnResult × FS × List Effect :=
  let c := V2.cleanup fs pp gp
  (match res with
   | Except.ok b => TryOnResult.success b pt
   | Except.error e => TryOnResult.failure (errMsg e) pt,
   c.1, tr ++ c.2)

/-- Variant 2's `performTryOn` (lines 222-336): connect afresh, download
both images to temp files, predict with the named argument set, normalize
`result.data[0]`, convert any thrown error in the catch block, and delete
the temp files in the `finally` block on every exit path. -/
def V2.performTryOn (env : Env2) (fs0 : FS)
    (personImageUrl garmentImageUrl : String) : TryOnResult × FS × List Effect :=
  let pt : Int := (env.now2 : Int) - (env.now1 : Int)
  match env.connect with
  | Except.error e =>
      V2.finishTryOn pt (Except.error e) fs0 none none [Effect.connect SPACE_ID]
  | Except.ok c =>
    match V2.downloadToTempFile env fs0 personImageUrl "person" env.personStamp with
    | (Except.error e, tr1) =>
        V2.finishTryOn pt (Except.error e) fs0 none none
          (Effect.connect SPACE_ID :: tr1)
    | (Except.ok (pp, fs1), tr1) =>
      match V2.downloadToTempFile env fs1 garmentImageUrl "garment" env.garmentStamp with
      | (Except.error e, tr2) =>
          V2.finishTryOn pt (Except.error e) fs1 (some pp) none
            (Effect.connect SPACE_ID :: (tr1 ++ tr2))
      | (Except.ok (gp, fs2), tr2) =>
        match env.predict c pp gp with
        | Except.error e =>
            V2.finishTryOn pt (Except.error e) fs2 (some pp) (some gp)
              (Effect.connect SPACE_ID :: (tr1 ++ tr2 ++ [Effect.predictCall2 pp gp]))
        | Except.ok data =>
          let n := V2.normalizeOutputT env fs2 (data.headD JSVal.undef)
          V2.finishTryOn pt n.1 fs2 (some pp) (some gp)
            (Effect.connect SPACE_ID :: (tr1 ++ tr2 ++ [Effect.predictCall2 pp gp] ++ n.2))

/-- A collaborator behaviour in which every step succeeds: used by the
concrete witnesses below.  URLs "pu" and "gu" are the two source images;
the remote call returns an inline blob and a discarded mask preview. -/
def envGood : Env :=
  { hasToken := true
  , connect := Except.ok 7
  , duplicate := Except.error "duplicate failed"
  , axiosGet := fun u =>
      if u = "pu" then Except.ok [1] else
      if u = "gu" then Except.ok [4, 5] else Except.error "fetch failed"
  , predict := fun _ _ => Except.ok [JSVal.blob [2, 3], JSVal.num 0]
  , readFile := fun _ => Except.error "read failed"
  , now1 := 5
  , now2 := 9 }

/-- The same behaviour with the HUGGINGFACE_API_KEY absent. -/
def envNoTok : Env := { envGood with hasToken := false }

/-- Direct connect fails, the duplicate fallback succeeds. -/
def envFallback : Env :=
  { envGood with connect := Except.error "connect failed", duplicate := Except.ok 8 }

/-- Both the direct connect and the duplicate fallback fail. -/
def envBothFail : Env :=
  { envGood with connect := Except.error "connect failed" }

/-- An all-success behaviour for variant 2. -/
def env2Good : Env2 :=
  { connect := Except.ok 7
  , axiosGet := fun u =>
      if u = "pu" then Except.ok [1] else
      if u = "gu" then Except.ok [4, 5] else Except.error "fetch failed"
  , predict := fun _ _ _ => Except.ok [JSVal.blob [2, 3], JSVal.num 0]
  , now1 := 5, now2 := 9, personStamp := 11, garmentStamp := 11 }

/-!  Helper lemmas about the embedding, shared by the claim theorems. -/

/-- The message stored in a failure outcome is never empty. -/
theorem errMsg_ne_empty (e : String) : errMsg e ≠ "" := by
  unfold errMsg
  split
  · decide
  · assumption

/-- A nonempty thrown message is passed through unchanged. -/
theorem errMsg_id (e : String) (h : e ≠ "") : errMsg e = e := by
  unfold errMsg
  simp [h]

/-- With a cached client, `getClient` returns it at once with no effects. -/
theorem getClient_cached (env : Env) (c : Nat) :
    getClient env (some c) = (Except.ok c, some c, []) := rfl

/-- With no cache and no token, `getClient` throws the configuration
error without performing any effect. -/
theorem getClient_noToken (env : Env) (h : env.hasToken = false) :
    getClient env none =
      (Except.error "HUGGINGFACE_API_KEY is required for IDM-VTON", none, []) := by
  simp [getClient, h]

/-- When `getClient` succeeds, the returned handle is the cached one. -/
theorem getClient_ok_state (env : Env) (st st1 : Option Nat) (c : Nat) (tr : List Effect)
    (h : getClient env st = (Except.ok c, st1, tr)) : st1 = some c := by
  unfold getClient at h
  cases st with
  | some c0 =>
    simp at h
    rw [← h.2.1, h.1]
  | none =>
    by_cases ht : env.hasToken
    · simp [ht] at h
      cases hc : env.connect with
      | ok c1 =>
        rw [hc] at h; simp at h
        rw [← h.2.1, h.1]
      | error e1 =>
        rw [hc] at h
        cases hd : env.duplicate with
        | ok c2 =>
          rw [hd] at h; simp at h
          rw [← h.2.1, h.1]
        | error e2 => rw [hd] at h; simp at h
    · simp [ht] at h

/-- `getClient` performs no predict call and creates no file. -/
theorem getClient_trace_kinds (env : Env) (st : Option Nat) :
    ∀ x ∈ (getClient env st).2.2, Effect.isPredict x = false ∧ Effect.isWrite x = false := by
  intro x hx
  unfold getClient at hx
  cases st with
  | some c => simp at hx
  | none =>
    by_cases ht : env.hasToken
    · simp [ht] at hx
      cases hc : env.connect with
      | ok c => rw [hc] at hx; simp at hx; subst hx; exact ⟨rfl, rfl⟩
      | error e =>
        rw [hc] at hx
        cases hd : env.duplicate with
        | ok c =>
          rw [hd] at hx; simp at hx
          rcases hx with h | h <;> (subst h; exact ⟨rfl, rfl⟩)
        | error e2 =>
          rw [hd] at hx; simp at hx
          rcases hx with h | h <;> (subst h; exact ⟨rfl, rfl⟩)
    · simp [ht] at hx

/-- Behaviour of `runTryOnBody` when the person image fetch throws. -/
theorem runTryOnBody_p_err (env : Env) (c : Nat) (p g : String) (e : String)
    (hp : env.axiosGet p = Except.error e) :
    runTryOnBody env c p g = (Except.error e, [Effect.httpGet p]) := by
  simp [runTryOnBody, fetchImageBlob, hp]

/-- Behaviour of `runTryOnBody` when the garment image fetch throws. -/
theorem runTryOnBody_g_err (env : Env) (c : Nat) (p g : String) (pb : List Nat) (e : String)
    (hp : env.axiosGet p = Except.ok pb) (hg : env.axiosGet g = Except.error e) :
    runTryOnBody env c p g = (Except.error e, [Effect.httpGet p, Effect.httpGet g]) := by
  simp [runTryOnBody, fetchImageBlob, hp, hg]

/-- Behaviour of `runTryOnBody` when the remote predict call throws. -/
theorem runTryOnBody_predict_err (env : Env) (c : Nat) (p g : String)
    (pb gb : List Nat) (e : String)
    (hp : env.axiosGet p = Except.ok pb) (hg : env.axiosGet g = Except.ok gb)
    (hpr : env.predict c (mkPredictCall pb gb) = Except.error e) :
    runTryOnBody env c p g =
      (Except.error e,
       [Effect.httpGet p, Effect.httpGet g, Effect.predictCall (mkPredictCall pb gb)]) := by
  simp [runTryOnBody, fetchImageBlob, hp, hg, hpr]

/-- Behaviour of `runTryOnBody` when the remote predict call returns. -/
theorem runTryOnBody_predict_ok (env : Env) (c : Nat) (p g : String)
    (pb gb : List Nat) (data : List JSVal)
    (hp : env.axiosGet p = Except.ok pb) (hg : env.axiosGet g = Except.ok gb)
    (hpr : env.predict c (mkPredictCall pb gb) = Except.ok data) :
    runTryOnBody env c p g =
      ((normalizeOutputT env (data.headD JSVal.undef)).1,
       [Effect.httpGet p, Effect.httpGet g, Effect.predictCall (mkPredictCall pb gb)] ++
         (normalizeOutputT env (data.headD JSVal.undef)).2) := by
  simp [runTryOnBody, fetchImageBlob, hp, hg, hpr]

/-- The normalizer performs no predict, connect, or file-creating effect. -/
theorem normalizeOutputT_trace (env : Env) (v : JSVal) :
    ∀ x ∈ (normalizeOutputT env v).2,
      Effect.isPredict x = false ∧ Effect.isConn x = false ∧ Effect.isWrite x = false := by
  intro x hx
  unfold normalizeOutputT at hx
  cases h1 : objUrlField v with
  | some u => rw [h1] at hx; simp at hx; subst hx; exact ⟨rfl, rfl, rfl⟩
  | none =>
    rw [h1] at hx
    cases h2 : objPathField v with
    | some q => rw [h2] at hx; simp at hx; subst hx; exact ⟨rfl, rfl, rfl⟩
    | none =>
      rw [h2] at hx
      cases h3 : httpString v with
      | some u => rw [h3] at hx; simp at hx; subst hx; exact ⟨rfl, rfl, rfl⟩
      | none =>
        rw [h3] at hx
        cases h4 : blobBytes v with
        | some b => rw [h4] at hx; simp at hx
        | none => rw [h4] at hx; simp at hx

/-- The body after client acquisition never connects, provisions, or
creates a file. -/
theorem runTryOnBody_trace (env : Env) (c : Nat) (p g : String) :
    ∀ x ∈ (runTryOnBody env c p g).2,
      Effect.isConn x = false ∧ Effect.isWrite x = false := by
  intro x hx
  cases hp : env.axiosGet p with
  | error e =>
    rw [runTryOnBody_p_err env c p g e hp] at hx
    simp at hx; subst hx; exact ⟨rfl, rfl⟩
  | ok pb =>
    cases hg : env.axiosGet g with
    | error e =>
      rw [runTryOnBody_g_err env c p g pb e hp hg] at hx
      simp at hx
      rcases hx with h | h <;> (subst h; exact ⟨rfl, rfl⟩)
    | ok gb =>
      cases hpr : env.predict c (mkPredictCall pb gb) with
      | error e =>
        rw [runTryOnBody_predict_err env c p g pb gb e hp hg hpr] at hx
        simp at hx
        rcases hx with h | h | h <;> (subst h; exact ⟨rfl, rfl⟩)
      | ok data =>
        rw [runTryOnBody_predict_ok env c p g pb gb data hp hg hpr] at hx
        simp at hx
        rcases hx with h | h | h | h
        · subst h; exact ⟨rfl, rfl⟩
        · subst h; exact ⟨rfl, rfl⟩
        · subst h; exact ⟨rfl, rfl⟩
        · exact ⟨(normalizeOutputT_trace env _ x h).2.1, (normalizeOutputT_trace env _ x h).2.2⟩

/-- A successful body run fetched both images and performed exactly one
predict call, with the fixed argument set built from the fetched bytes. -/
theorem runTryOnBody_success_spec (env : Env) (c : Nat) (p g : String) (b : List Nat)
    (h : (runTryOnBody env c p g).1 = Except.ok b) :
    ∃ pb gb, env.axiosGet p = Except.ok pb ∧ env.axiosGet g = Except.ok gb ∧
      List.filter Effect.isPredict (runTryOnBody env c p g).2 =
        [Effect.predictCall (mkPredictCall pb gb)] := by
  cases hp : env.axiosGet p with
  | error e => rw [runTryOnBody_p_err env c p g e hp] at h; simp at h
  | ok pb =>
    cases hg : env.axiosGet g with
    | error e => rw [runTryOnBody_g_err env c p g pb e hp hg] at h; simp at h
    | ok gb =>
      cases hpr : env.predict c (mkPredictCall pb gb) with
      | error e => rw [runTryOnBody_predict_err env c p g pb gb e hp hg hpr] at h; simp at h
      | ok data =>
        refine ⟨pb, gb, rfl, rfl, ?_⟩
        rw [runTryOnBody_predict_ok env c p g pb gb data hp hg hpr]
        simp [List.filter_append, Effect.isPredict]
        intro a ha
        exact (normalizeOutputT_trace env _ a ha).1

/-- Behaviour of `performTryOn` when client acquisition throws. -/
theorem performTryOn_eq_fail_client (env : Env) (st : Option Nat) (p g e : String)
    (st1 : Option Nat) (tr1 : List Effect)
    (h : getClient env st = (Except.error e, st1, tr1)) :
    performTryOn env st p g =
      (TryOnResult.failure (errMsg e) ((env.now2 : Int) - env.now1), none, tr1) := by
  simp [performTryOn, h]

/-- Behaviour of `performTryOn` when the body throws. -/
theorem performTryOn_eq_fail_body (env : Env) (st : Option Nat) (p g : String)
    (c : Nat) (st1 : Option Nat) (tr1 : List Effect) (e : String) (tr2 : List Effect)
    (h : getClient env st = (Except.ok c, st1, tr1))
    (hb : runTryOnBody env c p g = (Except.error e, tr2)) :
    performTryOn env st p g =
      (TryOnResult.failure (errMsg e) ((env.now2 : Int) - env.now1), none, tr1 ++ tr2) := by
  simp [performTryOn, h, hb]

/-- Behaviour of `performTryOn` when every step succeeds. -/
theorem performTryOn_eq_ok (env : Env) (st : Option Nat) (p g : String)
    (c : Nat) (st1 : Option Nat) (tr1 : List Effect) (b : List Nat) (tr2 : List Effect)
    (h : getClient env st = (Except.ok c, st1, tr1))
    (hb : runTryOnBody env c p g = (Except.ok b, tr2)) :
    performTryOn env st p g =
      (TryOnResult.success b ((env.now2 : Int) - env.now1), st1, tr1 ++ tr2) := by
  simp [performTryOn, h, hb]

/-- Unlinking a path removes it from the modelled filesystem. -/
theorem fsExists_fsUnlink_self (fs : FS) (q : String) :
    fsExists (fsUnlink fs q) q = false := by
  induction fs with
  | nil => rfl
  | cons a tl ih =>
    by_cases h : a.1 = q
    · simpa [fsUnlink, List.filter_cons, h] using ih
    · simpa [fsUnlink, fsExists, List.filter_cons, h] using ih

/-- Unlinking never makes an absent path present. -/
theorem fsExists_fsUnlink_false (fs : FS) (q r : String) (h : fsExists fs r = false) :
    fsExists (fsUnlink fs q) r = false := by
  induction fs with
  | nil => rfl
  | cons a tl ih =>
    have h2 : ((a.1 == r) || fsExists tl r) = false := h
    rw [Bool.or_eq_false_iff] at h2
    by_cases hq : a.1 = q
    · simpa [fsUnlink, List.filter_cons, hq] using ih h2.2
    · simpa [fsUnlink, fsExists, List.any_cons, List.filter_cons, hq, h2.1] using ih h2.2

/-- After the guarded unlink of a path, that path is gone. -/
theorem unlinkIfExistsOpt_self (fs : FS) (q : String) :
    fsExists (unlinkIfExistsOpt fs (some q)).1 q = false := by
  unfold unlinkIfExistsOpt
  by_cases h : fsExists fs q = true
  · simp [h, fsExists_fsUnlink_self]
  · simp only [Bool.not_eq_true] at h
    simp [h]

/-- The guarded unlink never makes an absent path present. -/
theorem unlinkIfExistsOpt_false (fs : FS) (o : Option String) (r : String)
    (h : fsExists fs r = false) : fsExists (unlinkIfExistsOpt fs o).1 r = false := by
  unfold unlinkIfExistsOpt
  cases o with
  | none => simpa using h
  | some q =>
    by_cases hq : fsExists fs q = true
    · simp [hq, fsExists_fsUnlink_false fs q r h]
    · simp only [Bool.not_eq_true] at hq
      simpa [hq] using h

/-- The `finally` cleanup removes the person temp file. -/
theorem cleanup_person_gone (fs : FS) (q : String) (gp : Option String) :
    fsExists (V2.cleanup fs (some q) gp).1 q = false := by
  unfold V2.cleanup
  exact unlinkIfExistsOpt_false _ gp q (unlinkIfExistsOpt_self fs q)

/-- The `finally` cleanup removes the garment temp file. -/
theorem cleanup_garment_gone (fs : FS) (pp : Option String) (q : String) :
    fsExists (V2.cleanup fs pp (some q)).1 q = false := by
  unfold V2.cleanup
  exact unlinkIfExistsOpt_self _ q

/-- The guarded unlink creates no file. -/
theorem unlinkIfExistsOpt_trace (fs : FS) (o : Option String) :
    ∀ x ∈ (unlinkIfExistsOpt fs o).2, Effect.isWrite x = false := by
  intro x hx
  unfold unlinkIfExistsOpt at hx
  cases o with
  | none => simp at hx
  | some q =>
    by_cases h : fsExists fs q = true
    · simp [h] at hx; subst hx; rfl
    · simp only [Bool.not_eq_true] at h
      simp [h] at hx

/-- The `finally` cleanup creates no file. -/
theorem cleanup_trace_noWrite (fs : FS) (pp gp : Option String) :
    ∀ x ∈ (V2.cleanup fs pp gp).2, Effect.isWrite x = false := by
  intro x hx
  unfold V2.cleanup at hx
  simp at hx
  rcases hx with h | h
  · exact unlinkIfExistsOpt_trace fs pp x h
  · exact unlinkIfExistsOpt_trace _ gp x h

/-- A successful body yields the success-shaped result. -/
theorem V2.finishTryOn_result_ok (pt : Int) (b : List Nat) (fs : FS)
    (pp gp : Option String) (tr : List Effect) :
    (V2.finishTryOn pt (Except.ok b) fs pp gp tr).1 = TryOnResult.success b pt := by
  simp [V2.finishTryOn]

/-- A thrown error yields the failure-shaped result via errMsg. -/
theorem V2.finishTryOn_result_err (pt : Int) (e : String) (fs : FS)
    (pp gp : Option String) (tr : List Effect) :
    (V2.finishTryOn pt (Except.error e) fs pp gp tr).1 =
      TryOnResult.failure (errMsg e) pt := by
  simp [V2.finishTryOn]

/-- The final filesystem is the one produced by the cleanup block. -/
theorem V2.finishTryOn_state (pt : Int) (res : Except String (List Nat)) (fs : FS)
    (pp gp : Option String) (tr : List Effect) :
    (V2.finishTryOn pt res fs pp gp tr).2.1 = (V2.cleanup fs pp gp).1 := by
  cases res <;> simp [V2.finishTryOn]

/-- The final trace appends the cleanup effects to the body trace. -/
theorem V2.finishTryOn_trace (pt : Int) (res : Except String (List Nat)) (fs : FS)
    (pp gp : Option String) (tr : List Effect) :
    (V2.finishTryOn pt res fs pp gp tr).2.2 = tr ++ (V2.cleanup fs pp gp).2 := by
  cases res <;> simp [V2.finishTryOn]

/-- Variant 2 normalizer creates no file. -/
theorem V2.normalizeOutput2_trace (env : Env2) (fs : FS) (v : JSVal) :
    ∀ x ∈ (V2.normalizeOutputT env fs v).2, Effect.isWrite x = false := by
  intro x hx
  unfold V2.normalizeOutputT at hx
  cases h1 : objUrlField v with
  | some u => rw [h1] at hx; simp at hx; subst hx; rfl
  | none =>
    rw [h1] at hx
    cases h2 : objPathField v with
    | some q => rw [h2] at hx; simp at hx; subst hx; rfl
    | none =>
      rw [h2] at hx
      cases h3 : httpString v with
      | some u => rw [h3] at hx; simp at hx; subst hx; rfl
      | none =>
        rw [h3] at hx
        cases h4 : blobBytes v with
        | some b => rw [h4] at hx; simp at hx
        | none => rw [h4] at hx; simp at hx

/-- Behaviour of variant 2 when the connection throws. -/
theorem V2.performTryOn_eq_connect_err (env : Env2) (fs0 : FS) (p g e : String)
    (hc : env.connect = Except.error e) :
    V2.performTryOn env fs0 p g =
      V2.finishTryOn ((env.now2 : Int) - env.now1) (Except.error e) fs0 none none
        [Effect.connect SPACE_ID] := by
  simp [V2.performTryOn, hc]

/-- Behaviour of variant 2 when the person image fetch throws. -/
theorem V2.performTryOn_eq_p_err (env : Env2) (fs0 : FS) (p g : String) (c : Nat) (e : String)
    (hc : env.connect = Except.ok c) (hp : env.axiosGet p = Except.error e) :
    V2.performTryOn env fs0 p g =
      V2.finishTryOn ((env.now2 : Int) - env.now1) (Except.error e) fs0 none none
        [Effect.connect SPACE_ID, Effect.httpGet p] := by
  simp [V2.performTryOn, V2.downloadToTempFile, hc, hp]

/-- Behaviour of variant 2 when the garment image fetch throws. -/
theorem V2.performTryOn_eq_g_err (env : Env2) (fs0 : FS) (p g : String) (c : Nat)
    (pb : List Nat) (e : String)
    (hc : env.connect = Except.ok c) (hp : env.axiosGet p = Except.ok pb)
    (hg : env.axiosGet g = Except.error e) :
    V2.performTryOn env fs0 p g =
      V2.finishTryOn ((env.now2 : Int) - env.now1) (Except.error e)
        (fsWrite fs0 (tempPath "person" env.personStamp) pb)
        (some (tempPath "person" env.personStamp)) none
        [Effect.connect SPACE_ID, Effect.httpGet p,
         Effect.writeFile (tempPath "person" env.personStamp), Effect.httpGet g] := by
  simp [V2.performTryOn, V2.downloadToTempFile, hc, hp, hg]

/-- Behaviour of variant 2 when the remote predict call throws. -/
theorem V2.performTryOn_eq_predict_err (env : Env2) (fs0 : FS) (p g : String) (c : Nat)
    (pb gb : List Nat) (e : String)
    (hc : env.connect = Except.ok c) (hp : env.axiosGet p = Except.ok pb)
    (hg : env.axiosGet g = Except.ok gb)
    (hpr : env.predict c (tempPath "person" env.personStamp)
             (tempPath "garment" env.garmentStamp) = Except.error e) :
    V2.performTryOn env fs0 p g =
      V2.finishTryOn ((env.now2 : Int) - env.now1) (Except.error e)
        (fsWrite (fsWrite fs0 (tempPath "person" env.personStamp) pb)
          (tempPath "garment" env.garmentStamp) gb)
        (some (tempPath "person" env.personStamp))
        (some (tempPath "garment" env.garmentStamp))
        [Effect.connect SPACE_ID, Effect.httpGet p,
         Effect.writeFile (tempPath "person" env.personStamp), Effect.httpGet g,
         Effect.writeFile (tempPath "garment" env.garmentStamp),
         Effect.predictCall2 (tempPath "person" env.personStamp)
           (tempPath "garment" env.garmentStamp)] := by
  simp [V2.performTryOn, V2.downloadToTempFile, hc, hp, hg, hpr]

/-- Behaviour of variant 2 when the remote predict call returns. -/
theorem V2.performTryOn_eq_predict_ok (env : Env2) (fs0 : FS) (p g : String) (c : Nat)
    (pb gb : List Nat) (data : List JSVal)
    (hc : env.connect = Except.ok c) (hp : env.axiosGet p = Except.ok pb)
    (hg : env.axiosGet g = Except.ok gb)
    (hpr : env.predict c (tempPath "person" env.personStamp)
             (tempPath "garment" env.garmentStamp) = Except.ok data) :
    V2.performTryOn env fs0 p g =
      V2.finishTryOn ((env.now2 : Int) - env.now1)
        (V2.normalizeOutputT env
          (fsWrite (fsWrite fs0 (tempPath "person" env.personStamp) pb)
            (tempPath "garment" env.garmentStamp) gb) (data.headD JSVal.undef)).1
        (fsWrite (fsWrite fs0 (tempPath "person" env.personStamp) pb)
          (tempPath "garment" env.garmentStamp) gb)
        (some (tempPath "person" env.personStamp))
        (some (tempPath "garment" env.garmentStamp))
        ([Effect.connect SPACE_ID, Effect.httpGet p,
          Effect.writeFile (tempPath "person" env.personStamp), Effect.httpGet g,
          Effect.writeFile (tempPath "garment" env.garmentStamp),
          Effect.predictCall2 (tempPath "person" env.personStamp)
            (tempPath "garment" env.garmentStamp)] ++
         (V2.normalizeOutputT env
           (fsWrite (fsWrite fs0 (tempPath "person" env.personStamp) pb)
             (tempPath "garment" env.garmentStamp) gb) (data.headD JSVal.undef)).2) := by
  simp [V2.performTryOn, V2.downloadToTempFile, hc, hp, hg, hpr]
/-- C1: for every pair of input URLs and every behaviour of the remote
collaborators (connection, image fetch, remote call, result fetch),
`performTryOn` — in both variants of the source — never lets an exception
escape: it always returns either the success shape
`{success: true, imageBuffer, processingTime}` or the failure shape
`{success: false, error, processingTime}` with a nonempty error string,
every internal failure being converted to the failure-shaped result. -/
theorem performTryOn_total_shape (env : Env) (st : Option Nat)
    (env2 : Env2) (fs0 : FS) (p g : String) :
    ((∃ b t, (performTryOn env st p g).1 = TryOnResult.success b t) ∨
     (∃ e t, (performTryOn env st p g).1 = TryOnResult.failure e t ∧ e ≠ "")) ∧
    ((∃ b t, (V2.performTryOn env2 fs0 p g).1 = TryOnResult.success b t) ∨
     (∃ e t, (V2.performTryOn env2 fs0 p g).1 = TryOnResult.failure e t ∧ e ≠ "")) := by
  constructor
  · rcases hgc : getClient env st with ⟨ec, st1, tr1⟩
    cases ec with
    | error e =>
      refine Or.inr ⟨errMsg e, (env.now2 : Int) - env.now1, ?_, errMsg_ne_empty e⟩
      rw [performTryOn_eq_fail_client env st p g e st1 tr1 hgc]
    | ok c =>
      rcases hb : runTryOnBody env c p g with ⟨res, tr2⟩
      cases res with
      | error e =>
        refine Or.inr ⟨errMsg e, (env.now2 : Int) - env.now1, ?_, errMsg_ne_empty e⟩
        rw [performTryOn_eq_fail_body env st p g c st1 tr1 e tr2 hgc hb]
      | ok b =>
        refine Or.inl ⟨b, (env.now2 : Int) - env.now1, ?_⟩
        rw [performTryOn_eq_ok env st p g c st1 tr1 b tr2 hgc hb]
  · cases hc : env2.connect with
    | error e =>
      refine Or.inr ⟨errMsg e, (env2.now2 : Int) - env2.now1, ?_, errMsg_ne_empty e⟩
      rw [V2.performTryOn_eq_connect_err env2 fs0 p g e hc]
      exact V2.finishTryOn_result_err _ _ _ _ _ _
    | ok c =>
      cases hp : env2.axiosGet p with
      | error e =>
        refine Or.inr ⟨errMsg e, (env2.now2 : Int) - env2.now1, ?_, errMsg_ne_empty e⟩
        rw [V2.performTryOn_eq_p_err env2 fs0 p g c e hc hp]
        exact V2.finishTryOn_result_err _ _ _ _ _ _
      | ok pb =>
        cases hg : env2.axiosGet g with
        | error e =>
          refine Or.inr ⟨errMsg e, (env2.now2 : Int) - env2.now1, ?_, errMsg_ne_empty e⟩
          rw [V2.performTryOn_eq_g_err env2 fs0 p g c pb e hc hp hg]
          exact V2.finishTryOn_result_err _ _ _ _ _ _
        | ok gb =>
          cases hpr : env2.predict c (tempPath "person" env2.personStamp)
              (tempPath "garment" env2.garmentStamp) with
          | error e =>
            refine Or.inr ⟨errMsg e, (env2.now2 : Int) - env2.now1, ?_, errMsg_ne_empty e⟩
            rw [V2.performTryOn_eq_predict_err env2 fs0 p g c pb gb e hc hp hg hpr]
            exact V2.finishTryOn_result_err _ _ _ _ _ _
          | ok data =>
            rw [V2.performTryOn_eq_predict_ok env2 fs0 p g c pb gb data hc hp hg hpr]
            cases hn : (V2.normalizeOutputT env2
                (fsWrite (fsWrite fs0 (tempPath "person" env2.personStamp) pb)
                  (tempPath "garment" env2.garmentStamp) gb) (data.headD JSVal.undef)).1 with
            | error e =>
              refine Or.inr ⟨errMsg e, (env2.now2 : Int) - env2.now1, ?_, errMsg_ne_empty e⟩
              exact V2.finishTryOn_result_err _ _ _ _ _ _
            | ok b =>
              refine Or.inl ⟨b, (env2.now2 : Int) - env2.now1, ?_⟩
              exact V2.finishTryOn_result_ok _ _ _ _ _ _

/-- C3: when HUGGINGFACE_API_KEY is absent and no session handle is
cached, `performTryOn` returns a failure outcome whose message names the
missing required credential, and the effect trace is empty: no network
call (connection, provisioning, or image fetch) is attempted. -/
theorem performTryOn_missing_credential (env : Env) (p g : String)
    (h : env.hasToken = false) :
    performTryOn env none p g =
      (TryOnResult.failure "HUGGINGFACE_API_KEY is required for IDM-VTON"
         ((env.now2 : Int) - env.now1), none, []) := by
  rw [performTryOn_eq_fail_client env none p g _ none [] (getClient_noToken env h)]
  rw [errMsg_id _ (by decide)]

/-- Witness for C3 at a concrete credential-free environment. -/
theorem performTryOn_missing_credential_witness :
    performTryOn envNoTok none "pu" "gu" =
      (TryOnResult.failure "HUGGINGFACE_API_KEY is required for IDM-VTON" 4, none, []) := by
  have h := performTryOn_missing_credential envNoTok "pu" "gu" rfl
  simpa using h

/-- C4: whenever `performTryOn` returns a failure outcome the cached
session handle is cleared (the final cache state is `none`), and a
subsequent acquire with a token present performs a fresh connection
attempt. -/
theorem performTryOn_failure_invalidates_cache :
    (∀ (env : Env) (st : Option Nat) (p g e : String) (t : Int),
       (performTryOn env st p g).1 = TryOnResult.failure e t →
       (performTryOn env st p g).2.1 = none) ∧
    (∀ env : Env, env.hasToken = true →
       Effect.connect SPACE_ID ∈ (getClient env none).2.2) := by
  constructor
  · intro env st p g e t hf
    rcases hgc : getClient env st with ⟨ec, st1, tr1⟩
    cases ec with
    | error e2 => rw [performTryOn_eq_fail_client env st p g e2 st1 tr1 hgc]
    | ok c =>
      rcases hb : runTryOnBody env c p g with ⟨res, tr2⟩
      cases res with
      | error e2 => rw [performTryOn_eq_fail_body env st p g c st1 tr1 e2 tr2 hgc hb]
      | ok b =>
        rw [performTryOn_eq_ok env st p g c st1 tr1 b tr2 hgc hb] at hf
        simp at hf
  · intro env ht
    unfold getClient
    simp only [ht, if_true]
    cases hc : env.connect with
    | ok c => simp
    | error e =>
      cases hd : env.duplicate with
      | ok c => simp
      | error e2 => simp

/-- Witness for C4 at concrete failing and succeeding environments. -/
theorem performTryOn_failure_invalidates_cache_witness :
    (performTryOn envNoTok none "pu" "gu").2.1 = none ∧
    Effect.connect SPACE_ID ∈ (getClient envGood none).2.2 := by
  constructor
  · exact performTryOn_failure_invalidates_cache.1 envNoTok none "pu" "gu"
      "HUGGINGFACE_API_KEY is required for IDM-VTON" 4 (by decide)
  · exact performTryOn_failure_invalidates_cache.2 envGood rfl

/-- C5: with a session handle already cached, the acquire step returns it
immediately with no validation and no effects; a whole `performTryOn` run
on a cached handle performs no connect or provisioning effect; and a
successful invocation always leaves a cached handle, so a second call
after a successful first reuses it. -/
theorem performTryOn_cached_reuse :
    (∀ (env : Env) (c : Nat), getClient env (some c) = (Except.ok c, some c, [])) ∧
    (∀ (env : Env) (c : Nat) (p g : String) (x : Effect),
       x ∈ (performTryOn env (some c) p g).2.2 → Effect.isConn x = false) ∧
    (∀ (env : Env) (st : Option Nat) (p g : String),
       (∃ b t, (performTryOn env st p g).1 = TryOnResult.success b t) →
       (performTryOn env st p g).2.1 ≠ none) := by
  refine ⟨fun env c => rfl, ?_, ?_⟩
  · intro env c p g x hx
    rcases hb : runTryOnBody env c p g with ⟨res, tr2⟩
    have hmem : x ∈ tr2 → Effect.isConn x = false := by
      intro h2
      exact (runTryOnBody_trace env c p g x (by rw [hb]; exact h2)).1
    cases res with
    | error e =>
      rw [performTryOn_eq_fail_body env (some c) p g c (some c) [] e tr2 rfl hb] at hx
      simp at hx
      exact hmem hx
    | ok b =>
      rw [performTryOn_eq_ok env (some c) p g c (some c) [] b tr2 rfl hb] at hx
      simp at hx
      exact hmem hx
  · intro env st p g hs
    rcases hs with ⟨b, t, hs⟩
    rcases hgc : getClient env st with ⟨ec, st1, tr1⟩
    cases ec with
    | error e =>
      rw [performTryOn_eq_fail_client env st p g e st1 tr1 hgc] at hs
      simp at hs
    | ok c =>
      rcases hb : runTryOnBody env c p g with ⟨res, tr2⟩
      cases res with
      | error e =>
        rw [performTryOn_eq_fail_body env st p g c st1 tr1 e tr2 hgc hb] at hs
        simp at hs
      | ok b2 =>
        rw [performTryOn_eq_ok env st p g c st1 tr1 b2 tr2 hgc hb]
        simp [getClient_ok_state env st st1 c tr1 hgc]

/-- Witness for C5 at a concrete all-success environment. -/
theorem performTryOn_cached_reuse_witness :
    Effect.isConn (Effect.httpGet "pu") = false ∧
    (performTryOn envGood none "pu" "gu").2.1 ≠ none := by
  constructor
  · exact performTryOn_cached_reuse.2.1 envGood 7 "pu" "gu" (Effect.httpGet "pu") (by decide)
  · exact performTryOn_cached_reuse.2.2 envGood none "pu" "gu" ⟨[2, 3], 4, by decide⟩

/-- C10: in every outcome of `performTryOn`, success or failure, the
`processingTime` field equals the difference between the clock reading
taken at the end of the operation and the one taken at its start, and is
non-negative whenever the clock does not go backwards. -/
theorem performTryOn_processing_time (env : Env) (st : Option Nat) (p g : String) :
    (performTryOn env st p g).1.processingTime = (env.now2 : Int) - env.now1 ∧
    (env.now1 ≤ env.now2 → 0 ≤ (performTryOn env st p g).1.processingTime) := by
  have h1 : (performTryOn env st p g).1.processingTime = (env.now2 : Int) - env.now1 := by
    rcases hgc : getClient env st with ⟨ec, st1, tr1⟩
    cases ec with
    | error e => rw [performTryOn_eq_fail_client env st p g e st1 tr1 hgc]; rfl
    | ok c =>
      rcases hb : runTryOnBody env c p g with ⟨res, tr2⟩
      cases res with
      | error e => rw [performTryOn_eq_fail_body env st p g c st1 tr1 e tr2 hgc hb]; rfl
      | ok b => rw [performTryOn_eq_ok env st p g c st1 tr1 b tr2 hgc hb]; rfl
  refine ⟨h1, fun h => ?_⟩
  rw [h1]
  omega

/-- Witness for C10 at a concrete environment with clock readings 5, 9. -/
theorem performTryOn_processing_time_witness :
    (performTryOn envGood none "pu" "gu").1.processingTime = 4 ∧
    0 ≤ (performTryOn envGood none "pu" "gu").1.processingTime := by
  constructor
  · have h := (performTryOn_processing_time envGood none "pu" "gu").1
    simpa using h
  · exact (performTryOn_processing_time envGood none "pu" "gu").2 (by decide)

/-- C2: the result normalizer checks the first remote output against
exactly four shapes in precedence order, first match wins: an object with
a truthy `url` field is fetched over HTTP (even when a `path` field is
also present), an object with a truthy `path` field but no truthy `url`
is read from disk, a bare string starting with "http" is fetched over
HTTP, an inline blob is extracted directly; in each case the produced
bytes are exactly those of the referenced source, and any value matching
none of the four shapes fails with
'Unexpected output format from Gradio client'. -/
theorem normalizeOutput_shapes :
    (∀ (env : Env) (u : String) (po : Option String), u ≠ "" →
       normalizeOutputT env (JSVal.obj (some u) po) =
         (env.axiosGet u, [Effect.httpGet u])) ∧
    (∀ (env : Env) (uo : Option String) (q : String),
       (uo = none ∨ uo = some "") → q ≠ "" →
       normalizeOutputT env (JSVal.obj uo (some q)) =
         (env.readFile q, [Effect.readFile q])) ∧
    (∀ (env : Env) (s : String), jsStartsWith s "http" = true →
       normalizeOutputT env (JSVal.str s) = (env.axiosGet s, [Effect.httpGet s])) ∧
    (∀ (env : Env) (b : List Nat),
       normalizeOutputT env (JSVal.blob b) = (Except.ok b, [])) ∧
    (∀ (env : Env) (v : JSVal),
       objUrlField v = none → objPathField v = none → httpString v = none →
       blobBytes v = none →
       normalizeOutputT env v =
         (Except.error "Unexpected output format from Gradio client", [])) := by
  refine ⟨?_, ?_, ?_, ?_, ?_⟩
  · intro env u po hu
    simp [normalizeOutputT, objUrlField, hu]
  · intro env uo q huo hq
    rcases huo with h | h <;> subst h <;>
      simp [normalizeOutputT, objUrlField, objPathField, hq]
  · intro env s hs
    simp [normalizeOutputT, objUrlField, objPathField, httpString, hs]
  · intro env b
    simp [normalizeOutputT, objUrlField, objPathField, httpString, blobBytes]
  · intro env v h1 h2 h3 h4
    simp [normalizeOutputT, h1, h2, h3, h4]

/-- Witness for C2: one concrete value of each recognized shape plus an
unrecognized number. -/
theorem normalizeOutput_shapes_witness :
    normalizeOutputT envGood (JSVal.obj (some "hu") (some "hp")) =
      (envGood.axiosGet "hu", [Effect.httpGet "hu"]) ∧
    normalizeOutputT envGood (JSVal.obj none (some "hp")) =
      (envGood.readFile "hp", [Effect.readFile "hp"]) ∧
    normalizeOutputT envGood (JSVal.str "https://x/out.jpg") =
      (envGood.axiosGet "https://x/out.jpg", [Effect.httpGet "https://x/out.jpg"]) ∧
    normalizeOutputT envGood (JSVal.blob [9]) = (Except.ok [9], []) ∧
    normalizeOutputT envGood (JSVal.num 42) =
      (Except.error "Unexpected output format from Gradio client", []) := by
  refine ⟨?_, ?_, ?_, ?_, ?_⟩
  · exact normalizeOutput_shapes.1 envGood "hu" (some "hp") (by decide)
  · exact normalizeOutput_shapes.2.1 envGood none "hp" (Or.inl rfl) (by decide)
  · exact normalizeOutput_shapes.2.2.1 envGood "https://x/out.jpg" (by decide)
  · exact normalizeOutput_shapes.2.2.2.1 envGood [9]
  · exact normalizeOutput_shapes.2.2.2.2 envGood (JSVal.num 42) rfl rfl rfl rfl

/-- C6: with no cached handle and the credential present, acquire first
attempts the direct connection to SPACE_ID; only if that fails does it
attempt the fallback duplication that provisions a private dedicated
instance (private, 300-second timeout); in either successful case the
obtained handle is stored in the cache, and if both attempts fail the
failure propagates with the cache left empty. -/
theorem getClient_connect_then_duplicate (env : Env) (ht : env.hasToken = true) :
    (∀ c, env.connect = Except.ok c →
       getClient env none = (Except.ok c, some c, [Effect.connect SPACE_ID])) ∧
    (∀ e c, env.connect = Except.error e → env.duplicate = Except.ok c →
       getClient env none =
         (Except.ok c, some c,
          [Effect.connect SPACE_ID, Effect.duplicate SPACE_ID 300 true])) ∧
    (∀ e e2, env.connect = Except.error e → env.duplicate = Except.error e2 →
       getClient env none =
         (Except.error e2, none,
          [Effect.connect SPACE_ID, Effect.duplicate SPACE_ID 300 true])) := by
  refine ⟨?_, ?_, ?_⟩ <;> intros <;> simp only [getClient, ht, if_true, *]

/-- Witness for C6 at three concrete environments: direct connect
succeeds, fallback succeeds, both fail. -/
theorem getClient_connect_then_duplicate_witness :
    getClient envGood none = (Except.ok 7, some 7, [Effect.connect SPACE_ID]) ∧
    getClient envFallback none =
      (Except.ok 8, some 8,
       [Effect.connect SPACE_ID, Effect.duplicate SPACE_ID 300 true]) ∧
    getClient envBothFail none =
      (Except.error "duplicate failed", none,
       [Effect.connect SPACE_ID, Effect.duplicate SPACE_ID 300 true]) := by
  refine ⟨?_, ?_, ?_⟩
  · exact (getClient_connect_then_duplicate envGood rfl).1 7 rfl
  · exact (getClient_connect_then_duplicate envFallback rfl).2.1 "connect failed" 8 rfl rfl
  · exact (getClient_connect_then_duplicate envBothFail rfl).2.2
      "connect failed" "duplicate failed" rfl rfl

/-- C9: `checkModelStatus` performs exactly one direct connection to
SPACE_ID and never the duplicate fallback, neither reads nor writes the
cached session handle (its outcome is independent of the cache and the
cache is returned unchanged, also on failure), and returns
`{available: true, status}` on success and `{available: false, error}` on
failure, never throwing. -/
theorem checkModelStatus_single_connect (env : Env) (st : Option Nat) :
    (checkModelStatus env st).2.1 = st ∧
    (checkModelStatus env st).2.2 = [Effect.connect SPACE_ID] ∧
    (∀ st2, (checkModelStatus env st).1 = (checkModelStatus env st2).1) ∧
    (∀ c, env.connect = Except.ok c →
       (checkModelStatus env st).1 = StatusResult.available "Connected") ∧
    (∀ e, env.connect = Except.error e →
       (checkModelStatus env st).1 = StatusResult.unavailable e) := by
  cases hc : env.connect with
  | ok c =>
    refine ⟨by simp [checkModelStatus, hc], by simp [checkModelStatus, hc],
            fun st2 => by simp [checkModelStatus, hc], ?_, ?_⟩ <;>
      intro a ha <;> simp [checkModelStatus, hc] <;> simp [hc] at ha
  | error e =>
    refine ⟨by simp [checkModelStatus, hc], by simp [checkModelStatus, hc],
            fun st2 => by simp [checkModelStatus, hc], ?_, ?_⟩
    · intro a ha
      simp at ha
    · intro a ha
      simp at ha
      simp [checkModelStatus, hc, ha]

/-- Witness for C9 at concrete succeeding and failing environments. -/
theorem checkModelStatus_single_connect_witness :
    (checkModelStatus envGood (some 3)).2.1 = some 3 ∧
    (checkModelStatus envGood (some 3)).1 = StatusResult.available "Connected" ∧
    (checkModelStatus envBothFail none).1 = StatusResult.unavailable "connect failed" := by
  refine ⟨(checkModelStatus_single_connect envGood (some 3)).1, ?_, ?_⟩
  · exact (checkModelStatus_single_connect envGood (some 3)).2.2.2.1 7 rfl
  · exact (checkModelStatus_single_connect envBothFail none).2.2.2.2 "connect failed" rfl

/-- C7: every successful invocation performs exactly one remote predict
call, whose argument set is exactly the fixed one: endpoint "/tryon", the
person image wrapped as an ImageEditor dictionary (background = person
bytes, empty layers, null composite), the garment bytes, description
"A stylish garment", auto-mask true, auto-crop false, 30 denoise steps,
seed 42; and the second element of the returned output list is discarded
— replacing it changes nothing in the outcome. -/
theorem performTryOn_predict_fixed_args :
    (∀ (env : Env) (st : Option Nat) (p g : String),
       (∃ b t, (performTryOn env st p g).1 = TryOnResult.success b t) →
       ∃ pb gb, env.axiosGet p = Except.ok pb ∧ env.axiosGet g = Except.ok gb ∧
         List.filter Effect.isPredict (performTryOn env st p g).2.2 =
           [Effect.predictCall (mkPredictCall pb gb)]) ∧
    (∀ pb gb : List Nat, mkPredictCall pb gb =
       { endpoint := "/tryon"
       , dict := { background := pb, layers := [], composite := none }
       , garm_img := gb
       , garment_des := "A stylish garment"
       , is_checked := true
       , is_checked_crop := false
       , denoise_steps := 30
       , seed := 42 }) ∧
    (∀ (env : Env) (st : Option Nat) (p g : String) (d0 : JSVal) (rest rest2 : List JSVal),
       performTryOn { env with predict := fun _ _ => Except.ok (d0 :: rest) } st p g =
       performTryOn { env with predict := fun _ _ => Except.ok (d0 :: rest2) } st p g) := by
  refine ⟨?_, fun pb gb => rfl, fun env st p g d0 rest rest2 => rfl⟩
  intro env st p g hs
  rcases hs with ⟨b, t, hs⟩
  rcases hgc : getClient env st with ⟨ec, st1, tr1⟩
  cases ec with
  | error e =>
    rw [performTryOn_eq_fail_client env st p g e st1 tr1 hgc] at hs
    simp at hs
  | ok c =>
    rcases hb : runTryOnBody env c p g with ⟨res, tr2⟩
    cases res with
    | error e =>
      rw [performTryOn_eq_fail_body env st p g c st1 tr1 e tr2 hgc hb] at hs
      simp at hs
    | ok b2 =>
      rcases runTryOnBody_success_spec env c p g b2 (by rw [hb]) with
        ⟨pb, gb, hp, hg, hfilter⟩
      refine ⟨pb, gb, hp, hg, ?_⟩
      rw [performTryOn_eq_ok env st p g c st1 tr1 b2 tr2 hgc hb]
      have h1 : List.filter Effect.isPredict tr1 = [] := by
        rw [List.filter_eq_nil_iff]
        intro a ha
        simp [(getClient_trace_kinds env st a (by rw [hgc]; exact ha)).1]
      have h2 : List.filter Effect.isPredict tr2 =
          [Effect.predictCall (mkPredictCall pb gb)] := by
        rw [hb] at hfilter
        exact hfilter
      simp only [List.filter_append, h1, h2, List.nil_append]

/-- Witness for C7 at a concrete all-success environment. -/
theorem performTryOn_predict_fixed_args_witness :
    (∃ pb gb, envGood.axiosGet "pu" = Except.ok pb ∧
       envGood.axiosGet "gu" = Except.ok gb ∧
       List.filter Effect.isPredict (performTryOn envGood none "pu" "gu").2.2 =
         [Effect.predictCall (mkPredictCall pb gb)]) ∧
    (mkPredictCall [1] [4, 5]).denoise_steps = 30 ∧
    performTryOn { envGood with predict := fun _ _ => Except.ok [JSVal.blob [2, 3]] }
        none "pu" "gu" =
      performTryOn { envGood with
          predict := fun _ _ => Except.ok [JSVal.blob [2, 3], JSVal.num 0] }
        none "pu" "gu" := by
  refine ⟨?_, ?_, ?_⟩
  · exact performTryOn_predict_fixed_args.1 envGood none "pu" "gu" ⟨[2, 3], 4, by decide⟩
  · rw [performTryOn_predict_fixed_args.2.1 [1] [4, 5]]
  · exact performTryOn_predict_fixed_args.2.2 envGood none "pu" "gu"
      (JSVal.blob [2, 3]) [] [JSVal.num 0]

/-- C8: variant 1 of `performTryOn` creates no temporary file at all, and
in variant 2 every temporary file created while materializing the two
source images is deleted from the filesystem before the operation
returns, on every exit path (success, failure, or thrown error). -/
theorem performTryOn_temp_files_cleaned :
    (∀ (env : Env) (st : Option Nat) (p g : String) (x : Effect),
       x ∈ (performTryOn env st p g).2.2 → Effect.isWrite x = false) ∧
    (∀ (env2 : Env2) (fs0 : FS) (p g q : String),
       Effect.writeFile q ∈ (V2.performTryOn env2 fs0 p g).2.2 →
       fsExists (V2.performTryOn env2 fs0 p g).2.1 q = false) := by
  constructor
  · intro env st p g x hx
    rcases hgc : getClient env st with ⟨ec, st1, tr1⟩
    have htr1 : x ∈ tr1 → Effect.isWrite x = false := by
      intro h1
      exact (getClient_trace_kinds env st x (by rw [hgc]; exact h1)).2
    cases ec with
    | error e =>
      rw [performTryOn_eq_fail_client env st p g e st1 tr1 hgc] at hx
      exact htr1 hx
    | ok c =>
      rcases hb : runTryOnBody env c p g with ⟨res, tr2⟩
      have htr2 : x ∈ tr2 → Effect.isWrite x = false := by
        intro h2
        exact (runTryOnBody_trace env c p g x (by rw [hb]; exact h2)).2
      cases res with
      | error e =>
        rw [performTryOn_eq_fail_body env st p g c st1 tr1 e tr2 hgc hb] at hx
        simp at hx
        rcases hx with h | h
        · exact htr1 h
        · exact htr2 h
      | ok b =>
        rw [performTryOn_eq_ok env st p g c st1 tr1 b tr2 hgc hb] at hx
        simp at hx
        rcases hx with h | h
        · exact htr1 h
        · exact htr2 h
  · intro env2 fs0 p g q hx
    cases hc : env2.connect with
    | error e =>
      rw [V2.performTryOn_eq_connect_err env2 fs0 p g e hc] at hx
      rw [V2.finishTryOn_trace] at hx
      simp at hx
      have := cleanup_trace_noWrite fs0 none none _ hx
      simp [Effect.isWrite] at this
    | ok c =>
      cases hp : env2.axiosGet p with
      | error e =>
        rw [V2.performTryOn_eq_p_err env2 fs0 p g c e hc hp] at hx
        rw [V2.finishTryOn_trace] at hx
        simp at hx
        have := cleanup_trace_noWrite fs0 none none _ hx
        simp [Effect.isWrite] at this
      | ok pb =>
        cases hg : env2.axiosGet g with
        | error e =>
          rw [V2.performTryOn_eq_g_err env2 fs0 p g c pb e hc hp hg] at hx ⊢
          rw [V2.finishTryOn_trace] at hx
          rw [V2.finishTryOn_state]
          simp at hx
          rcases hx with h | h
          · rw [h]
            exact cleanup_person_gone _ _ _
          · have := cleanup_trace_noWrite
              (fsWrite fs0 (tempPath "person" env2.personStamp) pb)
              (some (tempPath "person" env2.personStamp)) none _ h
            simp [Effect.isWrite] at this
        | ok gb =>
          cases hpr : env2.predict c (tempPath "person" env2.personStamp)
              (tempPath "garment" env2.garmentStamp) with
          | error e =>
            rw [V2.performTryOn_eq_predict_err env2 fs0 p g c pb gb e hc hp hg hpr] at hx ⊢
            rw [V2.finishTryOn_trace] at hx
            rw [V2.finishTryOn_state]
            simp at hx
            rcases hx with h | h | h
            · rw [h]
              exact cleanup_person_gone _ _ _
            · rw [h]
              exact cleanup_garment_gone _ _ _
            · have := cleanup_trace_noWrite
                (fsWrite (fsWrite fs0 (tempPath "person" env2.personStamp) pb)
                  (tempPath "garment" env2.garmentStamp) gb)
                (some (tempPath "person" env2.personStamp))
                (some (tempPath "garment" env2.garmentStamp)) _ h
              simp [Effect.isWrite] at this
          | ok data =>
            rw [V2.performTryOn_eq_predict_ok env2 fs0 p g c pb gb data hc hp hg hpr] at hx ⊢
            rw [V2.finishTryOn_trace] at hx
            rw [V2.finishTryOn_state]
            simp at hx
            rcases hx with h | h | h | h
            · rw [h]
              exact cleanup_person_gone _ _ _
            · rw [h]
              exact cleanup_garment_gone _ _ _
            · have := V2.normalizeOutput2_trace env2 _ _ _ h
              simp [Effect.isWrite] at this
            · have := cleanup_trace_noWrite
                (fsWrite (fsWrite fs0 (tempPath "person" env2.personStamp) pb)
                  (tempPath "garment" env2.garmentStamp) gb)
                (some (tempPath "person" env2.personStamp))
                (some (tempPath "garment" env2.garmentStamp)) _ h
              simp [Effect.isWrite] at this

/-- Witness for C8: a run of variant 1 performing no write, and a
successful run of variant 2 whose person temp file is gone afterwards. -/
theorem performTryOn_temp_files_cleaned_witness :
    Effect.isWrite (Effect.httpGet "pu") = false ∧
    fsExists (V2.performTryOn env2Good [] "pu" "gu").2.1 "/tmp/person_11.jpg" = false := by
  constructor
  · exact performTryOn_temp_files_cleaned.1 envGood none "pu" "gu"
      (Effect.httpGet "pu") (by decide)
  · exact performTryOn_temp_files_cleaned.2 env2Good [] "pu" "gu"
      "/tmp/person_11.jpg" (by decide)
